import Mathlib

/-!
Shallow embedding of the zksync client (core/client) for specification checking.

This file embeds, in Lean 4, the parts of the repository source relevant to
the transaction preparation / dual-signature / finality-polling pipeline:

* `src/core/client/src/rpc_client.rs` — the JSON-RPC client (`RpcClient`),
* `src/core/client/src/zksync_account.rs` — the signing context (`ZksyncAccount`),
* `src/core/client/src/wallet.rs` — the coordinator (`Wallet`),
* `src/core/client/src/models.rs` — response shapes (`AccountInfoResp`, …).

Conventions of the embedding:

* Rust machine integers are modelled as `Nat`, with an explicit `% 2 ^ 32`
  where a `u32` increment can wrap (the cached nonce).
* A Rust `Result::Err` value is the `.err` constructor of `RpcResult`; a Rust
  process abort (`panic!`, `unwrap`, `expect`) is the distinct `.panic`
  constructor, carrying the panic/expect message.
* Network I/O is cut at the transport boundary: the wire outcome of a remote call
  (connection failure / non-OK status, or a parsed JSON-RPC `Output` envelope)
  is an explicit input (`TransportOutcome`) to the function that performs it.
* Mutex-guarded fields (`account_id`, `nonce` of `ZksyncAccount`) become plain
  fields, and the mutating methods thread the updated state explicitly; the
  embedded functions model one full critical section each, matching the
  sequential execution of the source.
* External collaborators that the repository consumes but whose code is not
  under `src/` (`Transfer` of the `models` crate, serde decoding, SHA-256, the
  scalar-field validity test) are modelled from the spec where a claim needs
  them; each such definition says so in its doc comment.
-/

namespace ZkClient

/-- Error taxonomy of the client (§7 of the design). The code under `src/`
only ever produces `transport` and `remoteRejected`; the remaining kinds
(`protocolError`, `accountNotRegistered`, `unknownToken`, `feeUnavailable`,
`missingAccountId`) belong to the taxonomy of the spec and are included so that
statements about them can be expressed and compared with what the code
actually returns. -/
inductive ClientError where
  | transport (message : String)
  | protocolError (message : String)
  | remoteRejected (code : Int) (message : String)
  | accountNotRegistered
  | unknownToken
  | feeUnavailable (message : String)
  | missingAccountId
deriving DecidableEq, Repr

/-- Outcome of a client operation: a value, a recoverable `Result::Err`, or a
process abort (`panic!` / `unwrap` / `expect`), with the panic message. -/
inductive RpcResult (α : Type) where
  | ok (value : α)
  | err (error : ClientError)
  | panic (message : String)
deriving DecidableEq, Repr

/-- Model of `serde_json::Value` (floating-point numbers are irrelevant to every call
the client decodes, so numbers are carried as integers). -/
inductive Json where
  | null
  | bool (b : Bool)
  | num (n : Int)
  | str (s : String)
  | arr (elems : List Json)
  | obj (fields : List (String × Json))

/-- Field lookup in a JSON object (`serde_json::Map::get`); `none` when the
value is not an object or the key is absent. -/
def Json.get? : Json → String → Option Json
  | .obj fields, key => fields.lookup key
  | _, _ => none

/-- Semantics of the string `Index` impl of `serde_json::Value`: yields `Null` when the value is not
an object or the key is absent (it never panics). -/
def Json.index (j : Json) (key : String) : Json :=
  (j.get? key).getD .null

/-- Model of `Value::as_str`. -/
def Json.asStr : Json → Option String
  | .str s => some s
  | _ => none

/-- Model of `Value::as_bool`. -/
def Json.asBool : Json → Option Bool
  | .bool b => some b
  | _ => none

/-- Model of `Value::as_object`, returning the field list. -/
def Json.asObject : Json → Option (List (String × Json))
  | .obj fields => some fields
  | _ => none

/-- The error half of a JSON-RPC failure envelope (`jsonrpc_core::Error`):
a numeric code and a message. -/
structure RpcFailure where
  code : Int
  message : String
deriving DecidableEq, Repr

/-- Model of `jsonrpc_core::types::response::Output`: exactly one of a success envelope
(carrying the result payload) or a failure envelope (carrying the error). -/
inductive Output where
  | success (result : Json)
  | failure (error : RpcFailure)

/-- Wire-level outcome of one POST as seen by `RpcClient::post_raw`: either
the transport failed (connection error, or a non-OK HTTP status — both become
`Err` in the source), or the node replied with a parsed `Output` envelope. -/
inductive TransportOutcome where
  | failed (message : String)
  | replied (reply : Output)

/-- State of the ZKSync operation (`rpc_client.rs`, `OperationState`). -/
structure OperationState where
  executed : Bool
  verified : Bool
deriving DecidableEq, Repr

/-- Embedding of `RpcClient::post_raw`: propagates transport failures as `Err`, otherwise
yields the parsed `Output` envelope. -/
def RpcClient.post_raw (r : TransportOutcome) : RpcResult Output :=
  match r with
  | .failed m => .err (.transport m)
  | .replied reply => .ok reply

/-- Embedding of `RpcClient::post`: on a success envelope returns the result payload; on a
failure envelope short-circuits with `failure::bail!("RPC error: {}", v.error)`,
an `Err` carrying the code and message of the node. -/
def RpcClient.post (r : TransportOutcome) : RpcResult Json :=
  match RpcClient.post_raw r with
  | .err e => .err e
  | .panic m => .panic m
  | .ok (.success v) => .ok v
  | .ok (.failure v) => .err (.remoteRejected v.code v.message)

/-- Model of `num::BigUint::from_str` on a decimal string: every character a digit,
and at least one of them. -/
def parseBigUint (s : String) : Option Nat :=
  if s.data.isEmpty then none
  else if s.data.all Char.isDigit then
    some (s.data.foldl (fun acc c => acc * 10 + (c.toNat - 48)) 0)
  else none

/-- Embedding of `RpcClient::get_tx_fee`: posts, then reads `ret["totalFee"]` as a string
(`expect` — a panic — when it is not one) and parses it as a `BigUint`
(`expect` again on failure). -/
def RpcClient.get_tx_fee (r : TransportOutcome) : RpcResult Nat :=
  match RpcClient.post r with
  | .err e => .err e
  | .panic m => .panic m
  | .ok ret =>
    match (ret.index ("totalFee")).asStr with
    | none => .panic ("Incorrect `totalFee` entry of response")
    | some fee_value =>
      match parseBigUint fee_value with
      | none => .panic ("failed to parse `get_tx_fee` response")
      | some fee => .ok fee

/-- Embedding of `RpcClient::ethop_info`: posts, takes the result as an object (`unwrap`),
reads `obj["executed"]` (the `serde_json::Map` index, which panics on a
missing key) as a bool (`unwrap`); when executed, additionally reads
`obj["block"]["verified"]`, else returns `verified = false`. -/
def RpcClient.ethop_info (r : TransportOutcome) : RpcResult OperationState :=
  match RpcClient.post r with
  | .err e => .err e
  | .panic m => .panic m
  | .ok ret =>
    match ret.asObject with
    | none => .panic ("called Option::unwrap on a None value")
    | some obj =>
      match obj.lookup ("executed") with
      | none => .panic ("no entry found for key")
      | some ev =>
        match ev.asBool with
        | none => .panic ("called Option::unwrap on a None value")
        | some executed =>
          if executed then
            match obj.lookup ("block") with
            | none => .panic ("no entry found for key")
            | some bv =>
              match bv.asObject with
              | none => .panic ("called Option::unwrap on a None value")
              | some block =>
                match block.lookup ("verified") with
                | none => .panic ("no entry found for key")
                | some vv =>
                  match vv.asBool with
                  | none => .panic ("called Option::unwrap on a None value")
                  | some verified => .ok ⟨executed, verified⟩
          else .ok ⟨executed, false⟩

/-- Embedding of `RpcClient::tx_info`: same decoding as `ethop_info` (the source repeats
the body verbatim for the `tx_info` method). -/
def RpcClient.tx_info (r : TransportOutcome) : RpcResult OperationState :=
  match RpcClient.post r with
  | .err e => .err e
  | .panic m => .panic m
  | .ok ret =>
    match ret.asObject with
    | none => .panic ("called Option::unwrap on a None value")
    | some obj =>
      match obj.lookup ("executed") with
      | none => .panic ("no entry found for key")
      | some ev =>
        match ev.asBool with
        | none => .panic ("called Option::unwrap on a None value")
        | some executed =>
          if executed then
            match obj.lookup ("block") with
            | none => .panic ("no entry found for key")
            | some bv =>
              match bv.asObject with
              | none => .panic ("called Option::unwrap on a None value")
              | some block =>
                match block.lookup ("verified") with
                | none => .panic ("no entry found for key")
                | some vv =>
                  match vv.asBool with
                  | none => .panic ("called Option::unwrap on a None value")
                  | some verified => .ok ⟨executed, verified⟩
          else .ok ⟨executed, false⟩

/-- Modelled from the spec: the native signing primitive is an external
collaborator (§1: consumed as a black box
`sign(account_id, from, to, token, amount, fee, nonce) -> NativeSignature`);
the signature value commits to exactly these fields (§3, TransferTransaction
invariant), which the black box is modelled as recording. -/
structure NativeSignature where
  account_id : Nat
  from_addr : Nat
  to_addr : Nat
  token : Nat
  amount : Nat
  fee : Nat
  nonce : Nat
deriving DecidableEq, Repr

/-- Modelled from the spec: `models::node::Transfer` lives in the `models`
crate, which is not under `src/`; §3 (TransferTransaction) gives its
attributes: account id, from, to, token id, amount, fee, nonce, and the
attached native signature. -/
structure Transfer where
  account_id : Nat
  from_addr : Nat
  to_addr : Nat
  token : Nat
  amount : Nat
  fee : Nat
  nonce : Nat
  signature : NativeSignature
deriving DecidableEq, Repr

/-- Modelled from the spec: `Transfer::new_signed` (in the `models` crate, not
under `src/`) builds the transfer from its arguments and attaches the native
signature over the exact tuple
(accountId, from, to, tokenId, amount, fee, nonce) (§4.2). -/
def Transfer.new_signed (account_id : Nat) (from_addr : Nat)
    (to_addr : Nat) (token : Nat) (amount : Nat) (fee : Nat)
    (nonce : Nat) : Transfer :=
  { account_id := account_id
    from_addr := from_addr
    to_addr := to_addr
    token := token
    amount := amount
    fee := fee
    nonce := nonce
    signature := ⟨account_id, from_addr, to_addr, token, amount, fee, nonce⟩ }

/-- Modelled from the spec: `Transfer::get_ethereum_sign_message` (in the
`models` crate, not under `src/`) renders the human-readable confirmation
message. §3 (DualSignature) requires only that the message deterministically
encode the token symbol, amount, fee and nonce committed to by the native
signature, plus the caller-supplied decimals (§4.2); the rendered message is
modelled by the fields it encodes. -/
structure EthSignMessage where
  token_symbol : String
  decimals : Nat
  amount : Nat
  fee : Nat
  nonce : Nat
deriving DecidableEq, Repr

/-- Modelled from the spec: the rendering reads the amount, fee and nonce from
the transfer it is called on, and the symbol and decimals from its arguments. -/
def Transfer.get_ethereum_sign_message (t : Transfer) (token_symbol : String)
    (decimals : Nat) : EthSignMessage :=
  ⟨token_symbol, decimals, t.amount, t.fee, t.nonce⟩

/-- Embedding of `ZksyncAccount` (`zksync_account.rs`): native key material, derived
public-key hash, owning address, and the two mutex-guarded cached fields
(`account_id : Mutex<Option<AccountId>>`, `nonce : Mutex<Nonce>`), embedded as
plain fields with explicit state threading. The opaque key material is
modelled as a number. -/
structure ZksyncAccount where
  private_key : Nat
  pubkey_hash : Nat
  address : Nat
  account_id : Option Nat
  nonce : Nat
deriving DecidableEq, Repr

/-- Embedding of `ZksyncAccount::nonce`. -/
def ZksyncAccount.get_nonce (acc : ZksyncAccount) : Nat :=
  acc.nonce

/-- Embedding of `ZksyncAccount::set_nonce`. -/
def ZksyncAccount.set_nonce (acc : ZksyncAccount) (new_nonce : Nat) :
    ZksyncAccount :=
  { acc with nonce := new_nonce }

/-- Embedding of `ZksyncAccount::set_account_id`. -/
def ZksyncAccount.set_account_id (acc : ZksyncAccount)
    (account_id : Option Nat) : ZksyncAccount :=
  { acc with account_id := account_id }

/-- Embedding of `ZksyncAccount::get_account_id`. -/
def ZksyncAccount.get_account_id (acc : ZksyncAccount) : Option Nat :=
  acc.account_id

/-- Embedding of `ZksyncAccount::sign_transfer`. One critical section of the source: lock
the stored nonce; build the signed transfer with
`nonce.unwrap_or(*stored_nonce)` (an `expect` — a panic — when the cached
account id is `None`); if `increment_nonce`, `*stored_nonce += 1` (a `u32`
increment, wrapping modulo `2 ^ 32`); finally render the confirmation message
from the signed transfer with the hard-coded 18 decimals. Returns the
transfer, the message, and the updated account state. -/
def ZksyncAccount.sign_transfer (acc : ZksyncAccount) (token_id : Nat)
    (token_symbol : String) (amount : Nat) (fee : Nat) (to_addr : Nat)
    (nonce : Option Nat) (increment_nonce : Bool) :
    RpcResult (Transfer × EthSignMessage × ZksyncAccount) :=
  match acc.account_id with
  | none => .panic ("can't sign tx withoud account id")
  | some account_id =>
    let transfer := Transfer.new_signed account_id acc.address to_addr token_id
      amount fee (nonce.getD acc.nonce)
    let acc' := if increment_nonce then
        { acc with nonce := (acc.nonce + 1) % 2 ^ 32 }
      else acc
    let eth_sign_message := transfer.get_ethereum_sign_message token_symbol 18
    .ok (transfer, eth_sign_message, acc')

/-- Iterated `sign_transfer` with no explicit nonce and
`increment_nonce = true`: performs the given number of back-to-back calls,
threading the account state, and collects the nonces of the produced
transfers in call order. Stops if a call panics. -/
def signTransfers (token_id : Nat) (token_symbol : String) (amount : Nat)
    (fee : Nat) (to_addr : Nat) :
    ZksyncAccount → Nat → List Nat × ZksyncAccount
  | acc, 0 => ([], acc)
  | acc, n + 1 =>
    match acc.sign_transfer token_id token_symbol amount fee to_addr none true with
    | .ok (t, _, acc') =>
      let rest := signTransfers token_id token_symbol amount fee to_addr acc' n
      (t.nonce :: rest.1, rest.2)
    | _ => ([], acc)

/-- Outcome of `private_key_from_seed` (`zksync_account.rs`). The
`panic!("Seed is too short")` is `seedTooShort`; the unbounded
retry loop is given explicit fuel, `outOfFuel` standing for the runs the
bound truncates. -/
inductive DeriveResult where
  | ok (key : List Nat)
  | seedTooShort
  | outOfFuel
deriving DecidableEq, Repr

/-- The retry loop of `private_key_from_seed`: hash the current effective
seed; if the digest is a valid scalar, return it, else continue with the
digest as the new effective seed. `hash` models the external `sha256_bytes`
and `valid` models `Fs::from_repr(..).is_ok()` (both from crates outside
`src/`). -/
def pk_loop (hash : List Nat → List Nat) (valid : List Nat → Bool) :
    Nat → List Nat → DeriveResult
  | 0, _ => .outOfFuel
  | fuel + 1, effective_seed =>
    let raw_priv_key := hash effective_seed
    if valid raw_priv_key then .ok raw_priv_key
    else pk_loop hash valid fuel raw_priv_key

/-- Embedding of `private_key_from_seed` (`zksync_account.rs`): panics when the seed is
shorter than 32 bytes; otherwise sets `effective_seed := sha256(seed)` and
runs the retry loop. -/
def private_key_from_seed (hash : List Nat → List Nat)
    (valid : List Nat → Bool) (fuel : Nat) (seed : List Nat) : DeriveResult :=
  if seed.length < 32 then .seedTooShort
  else pk_loop hash valid fuel (hash seed)

/-- Embedding of `ResponseAccountState` (`models.rs`): one balance snapshot. The
`HashMap<String, BigUintSerdeWrapper>` is embedded as an association list
(first-match lookup; HashMap keys are unique). -/
structure ResponseAccountState where
  balances : List (String × Nat)
  nonce : Nat
  pub_key_hash : Nat
deriving DecidableEq, Repr

/-- Embedding of `AccountInfoResp` (`models.rs`; the `depositing` part carries no data any
embedded function reads; it is kept as the balances list of
`DepositingAccountBalances` flattened to amounts). -/
structure AccountInfoResp where
  address : Nat
  id : Option Nat
  depositing : List (String × Nat)
  committed : ResponseAccountState
  verified : ResponseAccountState
deriving DecidableEq, Repr

/-- Embedding of `RpcClient::account_state_info` (`rpc_client.rs`): posts, then decodes the
result with `serde_json::from_value` (`expect` — a panic — on failure). The
serde decoding itself is derived code of an external crate, so it is passed in
as `decode`. -/
def RpcClient.account_state_info (r : TransportOutcome)
    (decode : Json → Option AccountInfoResp) : RpcResult AccountInfoResp :=
  match RpcClient.post r with
  | .err e => .err e
  | .panic m => .panic m
  | .ok ret =>
    match decode ret with
    | none => .panic ("failed to parse account request response")
    | some account_state => .ok account_state

/-- Embedding of `RpcClient::send_tx`: posts, then decodes the transaction
hash with `serde_json::from_value` (`expect` — a panic — on failure); the
serde decoding is external derived code, passed in as `decode`. -/
def RpcClient.send_tx (r : TransportOutcome) (decode : Json → Option Nat) :
    RpcResult Nat :=
  match RpcClient.post r with
  | .err e => .err e
  | .panic m => .panic m
  | .ok ret =>
    match decode ret with
    | none => .panic ("failed to parse `send_tx` response")
    | some tx_hash => .ok tx_hash

/-- Embedding of `BalanceState` (`wallet.rs`). -/
inductive BalanceState where
  | committed
  | verified
deriving DecidableEq, Repr

/-- The remote world one `Wallet` talks to, cut at the boundaries described
above: the wire reply served to each `account_info` call, the serde decoder
for it, the token catalogue result, and the wire reply served to the
`get_tx_fee` call. `tokens` is the result of `provider.get_tokens()`, a
`RpcClient` method the repository calls (`wallet.rs`) but whose body is not
under `src/`; modelled from the spec (§4.4 step 2: the token catalogue of the node, a
map from token symbol to its numeric id). -/
structure Env where
  accountReply : TransportOutcome
  decodeAccountInfo : Json → Option AccountInfoResp
  tokens : RpcResult (List (String × Nat))
  feeReply : TransportOutcome

/-- Embedding of `Wallet` (`wallet.rs`; the provider is represented by the `Env` the
methods take). -/
structure Wallet where
  cached_address : Nat
  sync_acc : Option ZksyncAccount

/-- Embedding of `Wallet::_get_state`: `account_state_info(..).await.unwrap()` — the
`unwrap` turns any `Err` of the RPC layer into a panic. -/
def Wallet._get_state (_w : Wallet) (env : Env) : RpcResult AccountInfoResp :=
  match RpcClient.account_state_info env.accountReply env.decodeAccountInfo with
  | .ok a => .ok a
  | .err _ => .panic ("called Result::unwrap on an Err value")
  | .panic m => .panic m

/-- Embedding of `Wallet::get_account_id`: fetches the state and `unwrap`s the optional
`id` field — a panic when the account is unregistered. -/
def Wallet.get_account_id (w : Wallet) (env : Env) : RpcResult Nat :=
  match w._get_state env with
  | .err e => .err e
  | .panic m => .panic m
  | .ok account_state =>
    match account_state.id with
    | none => .panic ("called Option::unwrap on a None value")
    | some i => .ok i

/-- Embedding of `Wallet::get_nonce`: fetches the state and returns the committed nonce. -/
def Wallet.get_nonce (w : Wallet) (env : Env) : RpcResult Nat :=
  match w._get_state env with
  | .err e => .err e
  | .panic m => .panic m
  | .ok account_state => .ok account_state.committed.nonce

/-- Embedding of `Wallet::get_balance`: fetches the state, selects the committed or
verified balances, and does `balances.get(token).cloned().unwrap().0` — the
`unwrap` panics when the token has no entry in the selected map. -/
def Wallet.get_balance (w : Wallet) (env : Env) (token : String)
    (state : BalanceState) : RpcResult Nat :=
  match w._get_state env with
  | .err e => .err e
  | .panic m => .panic m
  | .ok account_state =>
    let balances := match state with
      | .committed => account_state.committed.balances
      | .verified => account_state.verified.balances
    match balances.lookup token with
    | none => .panic ("called Option::unwrap on a None value")
    | some b => .ok b

/-- Embedding of `Wallet::resolve_token_id`: `get_tokens().await.unwrap()` (the `unwrap`
turns an RPC `Err` into a panic), then `tokens.get(symbol)?.id`. -/
def Wallet.resolve_token_id (env : Env) (token_symbol : String) :
    RpcResult (Option Nat) :=
  match env.tokens with
  | .err _ => .panic ("called Result::unwrap on an Err value")
  | .panic m => .panic m
  | .ok tokens => .ok (tokens.lookup token_symbol)

/-- Embedding of `models::node::tx::FranklinTx`, restricted to the transfer path (§1: only
the transfer-construction path is in scope; the enum itself lives in the
`models` crate, not under `src/`). -/
inductive FranklinTx where
  | transfer (t : Transfer)
deriving DecidableEq, Repr

/-- Embedding of `Wallet::prepare_sync_transfer`. Faithful to the order of
effects: `sync_acc.as_ref().unwrap()`; `get_account_id` (one `account_info`
round trip, panicking on any failure); `set_account_id(Some(..))`;
`get_nonce` (a second round trip); `set_nonce`; `resolve_token_id(..).unwrap()`
(panics when the catalogue lacks the symbol);
`fee.unwrap_or(provider.get_tx_fee(..).await.unwrap())` — `unwrap_or` is
eager, so the fee estimate is requested and `unwrap`ped before the supplied
fee is consulted, even when a fee was supplied; finally
`sign_transfer(token_id, symbol, amount, fee, to, None, true)`. Returns the
wrapped transaction, the confirmation message, and the updated signing
context. -/
def Wallet.prepare_sync_transfer (w : Wallet) (env : Env) (to_addr : Nat)
    (token_symbol : String) (amount : Nat) (fee : Option Nat) :
    RpcResult (FranklinTx × EthSignMessage × ZksyncAccount) :=
  match w.sync_acc with
  | none => .panic ("called Option::unwrap on a None value")
  | some sync_acc =>
    match w.get_account_id env with
    | .err e => .err e
    | .panic m => .panic m
    | .ok account_id =>
      let acc1 := sync_acc.set_account_id (some account_id)
      match w.get_nonce env with
      | .err e => .err e
      | .panic m => .panic m
      | .ok remote_nonce =>
        let acc2 := acc1.set_nonce remote_nonce
        match Wallet.resolve_token_id env token_symbol with
        | .err e => .err e
        | .panic m => .panic m
        | .ok resolved =>
          match resolved with
          | none => .panic ("called Option::unwrap on a None value")
          | some token_id =>
            match RpcClient.get_tx_fee env.feeReply with
            | .err _ => .panic ("called Result::unwrap on an Err value")
            | .panic m => .panic m
            | .ok estimate =>
              let fee := fee.getD estimate
              match acc2.sign_transfer token_id token_symbol amount fee
                  to_addr none true with
              | .err e => .err e
              | .panic m => .panic m
              | .ok (transfer, eth_sign_message, acc3) =>
                .ok (.transfer transfer, eth_sign_message, acc3)

/-! Concrete fixtures, used by the closed witness and counterexample
theorems below. -/

/-- Fixture: a signing context whose cached account id is set (7) and whose
cached nonce is 5. -/
def acc0 : ZksyncAccount := ⟨0, 0, 0, some 7, 5⟩

/-- Fixture: a registered account-state response — id 7, committed nonce 3
with an ETH balance, verified nonce 2. -/
def respOk : AccountInfoResp :=
  { address := 0
    id := some 7
    depositing := []
    committed := ⟨[("ETH", 100)], 3, 0⟩
    verified := ⟨[("ETH", 90)], 2, 0⟩ }

/-- Fixture: an account-state response with the `id` field absent. -/
def respNoId : AccountInfoResp :=
  { respOk with id := none }

/-- Fixture: an account-state response whose balance maps are empty. -/
def respNoBal : AccountInfoResp :=
  { respOk with committed := ⟨[], 3, 0⟩, verified := ⟨[], 2, 0⟩ }

/-- Fixture: a remote that answers every call successfully — the account
decodes to `respOk`, the catalogue maps ETH to token id 1, and the fee
estimate is the decimal string 10. -/
def envOk : Env :=
  { accountReply := .replied (.success (.obj []))
    decodeAccountInfo := fun _ => some respOk
    tokens := .ok [("ETH", 1)]
    feeReply := .replied (.success (.obj [("totalFee", .str ("10"))])) }

/-- Fixture: like `envOk` but the account state decodes with no id. -/
def envNoId : Env :=
  { envOk with decodeAccountInfo := fun _ => some respNoId }

/-- Fixture: like `envOk` but the account state decodes with empty balance
maps. -/
def envNoBal : Env :=
  { envOk with decodeAccountInfo := fun _ => some respNoBal }

/-- Fixture: like `envOk` but the fee-estimate call is answered with a
failure envelope (code 104, fee too low). -/
def envBadFee : Env :=
  { envOk with feeReply := .replied (.failure ⟨104, "fee too low"⟩) }

/-- Fixture: a wallet constructed from a seed — fresh signing context with no
account id and nonce 0. -/
def w0 : Wallet :=
  { cached_address := 0, sync_acc := some ⟨0, 0, 0, none, 0⟩ }

/-- Fixture: a reply to `ethop_info` with `executed = true` and
`block.verified = true`. -/
def opReplyOk : TransportOutcome :=
  .replied (.success (.obj [("executed", .bool true),
    ("block", .obj [("verified", .bool true)])]))

/-- Fixture hash function for the seed-derivation theorems: prepends a zero
byte (so iterates are tracked by length). -/
def hashFix (l : List Nat) : List Nat := 0 :: l

/-- Fixture validity test for the seed-derivation theorems: accepts exactly
the digests of length 35. -/
def validFix (l : List Nat) : Bool := l.length == 35

/-- Fixture seed of exactly 32 zero bytes. -/
def seedFix : List Nat := List.replicate 32 0

/-! Theorems settling the claims against the embedding, with shared helper
lemmas first. -/

/-- C2: every `OperationState` returned by `ethop_info` or `tx_info` (for any
remote reply they accept) has `verified = true` only when `executed = true`;
equivalently, a decoded `executed = false` forces `verified = false` in the
returned state. -/
theorem c2_finality_ordering (r : TransportOutcome) (st : OperationState)
    (h : RpcClient.ethop_info r = .ok st ∨ RpcClient.tx_info r = .ok st) :
    st.verified = true → st.executed = true := by
  intro hv
  have h : RpcClient.ethop_info r = .ok st := by
    rcases h with h | h
    · exact h
    · exact h
  unfold RpcClient.ethop_info at h
  iterate 10 (all_goals (try (split at h)))
  all_goals (try (injection h with h))
  all_goals (try (subst h))
  all_goals simp_all

/-- C2 witness: a concrete accepted reply (executed and verified both true)
on which the theorem applies. -/
theorem c2_finality_ordering_witness :
    RpcClient.ethop_info opReplyOk = .ok ⟨true, true⟩ ∧
      OperationState.executed ⟨true, true⟩ = true :=
  ⟨rfl, c2_finality_ordering opReplyOk ⟨true, true⟩ (Or.inl rfl) rfl⟩

/-- Helper for C1: iterating `sign_transfer` with no explicit nonce and
`increment_nonce = true` from a context with a set account id yields the
consecutive nonces starting at the cached one, as long as the `u32` cache
does not wrap. -/
theorem signTransfers_nonces (token_id : Nat) (sym : String)
    (amt fe : Nat) (to_addr : Nat) :
    ∀ (N : Nat) (acc : ZksyncAccount) (i : Nat),
      acc.account_id = some i → acc.nonce + N ≤ 2 ^ 32 →
      (signTransfers token_id sym amt fe to_addr acc N).1 =
        List.range' acc.nonce N := by
  intro N
  induction N with
  | zero => intro acc i hid hov; rfl
  | succ n ih =>
    intro acc i hid hov
    have hsign : acc.sign_transfer token_id sym amt fe to_addr none true =
        .ok (Transfer.new_signed i acc.address to_addr token_id amt fe
            acc.nonce,
          (Transfer.new_signed i acc.address to_addr token_id amt fe
            acc.nonce).get_ethereum_sign_message sym 18,
          { acc with nonce := (acc.nonce + 1) % 2 ^ 32 }) := by
      simp [ZksyncAccount.sign_transfer, hid]
    rw [List.range'_succ]
    cases n with
    | zero =>
      simp [signTransfers, hsign, Transfer.new_signed, List.range']
    | succ m =>
      have e32 : (2 : Nat) ^ 32 = 4294967296 := by norm_num
      rw [e32] at hov
      have hmod : (acc.nonce + 1) % 2 ^ 32 = acc.nonce + 1 := by
        rw [e32]; omega
      have htail := ih { acc with nonce := (acc.nonce + 1) % 2 ^ 32 } i hid
        (by simp only [hmod, e32]; omega)
      simp only [hmod] at htail
      rw [signTransfers, hsign]
      dsimp only
      rw [hmod, htail]
      simp [Transfer.new_signed]

/-- C1: from a context with a set account id and cached nonce `base`, a run
of `N` back-to-back `sign_transfer` calls with `autoIncrement = true` and no
explicit nonce produces transfers whose nonces are exactly
`base, base + 1, …, base + N - 1` (`List.range' base N`), with no duplicate
and no gap (provided the `u32` nonce does not wrap). -/
theorem c1_nonce_monotonicity (token_id : Nat) (sym : String)
    (amt fe : Nat) (to_addr : Nat) (acc : ZksyncAccount) (i : Nat)
    (N base : Nat) (hid : acc.account_id = some i) (hb : acc.nonce = base)
    (hov : base + N ≤ 2 ^ 32) :
    (signTransfers token_id sym amt fe to_addr acc N).1 =
        List.range' base N ∧
      ((signTransfers token_id sym amt fe to_addr acc N).1).Nodup := by
  subst hb
  have h := signTransfers_nonces token_id sym amt fe to_addr N acc i hid hov
  refine ⟨h, ?_⟩
  rw [h]
  exact List.nodup_range' _ _

/-- C1 witness: three back-to-back calls from cached nonce 5 produce exactly
the nonces 5, 6, 7. -/
theorem c1_nonce_monotonicity_witness :
    (signTransfers 1 "ETH" 1000 10 1 acc0 3).1 = List.range' 5 3 ∧
      ((signTransfers 1 "ETH" 1000 10 1 acc0 3).1).Nodup :=
  c1_nonce_monotonicity 1 "ETH" 1000 10 1 acc0 7 3 5 rfl rfl (by decide)

/-- C10: when `sign_transfer` is called with an explicit nonce and
`increment_nonce = true`, the cached nonce is still incremented by exactly one
from its previous cached value, whatever the explicit nonce is — the explicit
nonce is used only inside the signed transfer; with `increment_nonce = false`
the cached nonce is unchanged (stated below the `u32` wrap bound). -/
theorem c10_explicit_nonce_cache (acc : ZksyncAccount) (i token_id : Nat)
    (sym : String) (amt fe to_addr n : Nat)
    (hid : acc.account_id = some i) (hov : acc.nonce + 1 < 2 ^ 32) :
    (∀ t m acc', acc.sign_transfer token_id sym amt fe to_addr (some n) true =
        .ok (t, m, acc') → t.nonce = n ∧ acc'.nonce = acc.nonce + 1) ∧
    (∀ t m acc', acc.sign_transfer token_id sym amt fe to_addr (some n) false =
        .ok (t, m, acc') → t.nonce = n ∧ acc'.nonce = acc.nonce) := by
  have hmod : (acc.nonce + 1) % 2 ^ 32 = acc.nonce + 1 := Nat.mod_eq_of_lt hov
  refine ⟨fun t m acc' h => ?_, fun t m acc' h => ?_⟩
  · simp only [ZksyncAccount.sign_transfer, hid, if_true] at h
    injection h with h
    simp only [Prod.mk.injEq] at h
    obtain ⟨h1, h2, h3⟩ := h
    subst h1
    subst h3
    exact ⟨by simp [Transfer.new_signed],
      by show (acc.nonce + 1) % 2 ^ 32 = acc.nonce + 1; exact hmod⟩
  · simp only [ZksyncAccount.sign_transfer, hid, if_false] at h
    injection h with h
    simp only [Prod.mk.injEq] at h
    obtain ⟨h1, h2, h3⟩ := h
    subst h1
    subst h3
    exact ⟨by simp [Transfer.new_signed], rfl⟩

/-- C10 witness: from cached nonce 5 with explicit nonce 999 and
`increment_nonce = true`, the transfer carries nonce 999 while the cache
moves to 6. -/
theorem c10_explicit_nonce_cache_witness :
    Transfer.nonce (Transfer.new_signed 7 0 1 1 1000 10 999) = 999 ∧
      ZksyncAccount.nonce ⟨0, 0, 0, some 7, 6⟩ = acc0.nonce + 1 :=
  (c10_explicit_nonce_cache acc0 7 1 "ETH" 1000 10 1 999 rfl (by decide)).1
    (Transfer.new_signed 7 0 1 1 1000 10 999)
    ((Transfer.new_signed 7 0 1 1 1000 10 999).get_ethereum_sign_message
      ("ETH") 18)
    ⟨0, 0, 0, some 7, 6⟩ rfl

/-- C9 counterexample: with the cached AccountId unset, `sign_transfer`
aborts (the `expect` panic of the source) — it does not return a
`MissingAccountId` error value, refuting the claim at this concrete input. -/
theorem c9_counterexample :
    ZksyncAccount.sign_transfer ⟨0, 0, 0, none, 5⟩ 1 ("ETH") 1000 10 1
        none true = .panic ("can't sign tx withoud account id") ∧
      ZksyncAccount.sign_transfer ⟨0, 0, 0, none, 5⟩ 1 ("ETH") 1000 10 1
        none true ≠ .err .missingAccountId := by
  exact ⟨rfl, by decide⟩

/-- C9 (amended): when the cached AccountId is unset, `sign_transfer` aborts
with the panic message of the source (it does not return a `MissingAccountId`
error value); when the AccountId is set, the native signature is produced
over the exact tuple (accountId, from, to, tokenId, amount, fee, nonce), the
nonce taken from the explicit argument when provided, else from the cached
nonce. -/
theorem c9_missing_account_id (acc : ZksyncAccount) (token_id : Nat)
    (sym : String) (amt fe to_addr : Nat) (nonce : Option Nat) (inc : Bool) :
    (acc.account_id = none →
      acc.sign_transfer token_id sym amt fe to_addr nonce inc =
        .panic ("can't sign tx withoud account id")) ∧
    (∀ i, acc.account_id = some i →
      ∀ t m acc', acc.sign_transfer token_id sym amt fe to_addr nonce inc =
          .ok (t, m, acc') →
        t.signature = ⟨i, acc.address, to_addr, token_id, amt, fe,
          nonce.getD acc.nonce⟩) := by
  refine ⟨fun hnone => ?_, fun i hid t m acc' h => ?_⟩
  · simp [ZksyncAccount.sign_transfer, hnone]
  · simp only [ZksyncAccount.sign_transfer, hid] at h
    injection h with h
    simp only [Prod.mk.injEq] at h
    obtain ⟨h1, h2, h3⟩ := h
    subst h1
    simp [Transfer.new_signed]

/-- C9 witness: with account id 7 set, the signature of the produced transfer
commits to exactly the tuple (7, from 0, to 1, token 1, amount 1000, fee 10,
cached nonce 5). -/
theorem c9_missing_account_id_witness :
    Transfer.signature (Transfer.new_signed 7 0 1 1 1000 10 5) =
      ⟨7, 0, 1, 1, 1000, 10, 5⟩ :=
  (c9_missing_account_id acc0 1 ("ETH") 1000 10 1 none true).2 7 rfl
    (Transfer.new_signed 7 0 1 1 1000 10 5)
    ((Transfer.new_signed 7 0 1 1 1000 10 5).get_ethereum_sign_message
      ("ETH") 18)
    ⟨0, 0, 0, some 7, 6⟩ rfl

/-- C6: the confirmation message returned by a successful `sign_transfer`
encodes exactly the amount, fee and nonce of the native-signed transfer
returned with it, and re-rendering the message for any transfer that differs
in any of these three fields yields a different message. -/
theorem c6_dual_signature_consistency (acc : ZksyncAccount) (token_id : Nat)
    (sym : String) (amt fe to_addr : Nat) (nonce : Option Nat) (inc : Bool)
    (t : Transfer) (m : EthSignMessage) (acc' : ZksyncAccount)
    (h : acc.sign_transfer token_id sym amt fe to_addr nonce inc =
      .ok (t, m, acc')) :
    m.amount = t.amount ∧ m.fee = t.fee ∧ m.nonce = t.nonce ∧
      ∀ t' : Transfer, t'.amount ≠ t.amount ∨ t'.fee ≠ t.fee ∨
        t'.nonce ≠ t.nonce → t'.get_ethereum_sign_message sym 18 ≠ m := by
  cases hid : acc.account_id with
  | none => simp [ZksyncAccount.sign_transfer, hid] at h
  | some i =>
    simp only [ZksyncAccount.sign_transfer, hid] at h
    injection h with h
    simp only [Prod.mk.injEq] at h
    obtain ⟨h1, h2, h3⟩ := h
    subst h1
    subst h2
    refine ⟨rfl, rfl, rfl, fun t' hne heq => ?_⟩
    simp only [Transfer.get_ethereum_sign_message, EthSignMessage.mk.injEq] at heq
    rcases hne with hne | hne | hne
    · exact hne heq.2.2.1
    · exact hne heq.2.2.2.1
    · exact hne heq.2.2.2.2

/-- C6 witness: for the concrete signed transfer from `acc0`, the message
fields agree with the transfer, and a transfer with a different amount
re-renders to a different message. -/
theorem c6_dual_signature_consistency_witness :
    EthSignMessage.amount
        ((Transfer.new_signed 7 0 1 1 1000 10 5).get_ethereum_sign_message
          ("ETH") 18) =
      Transfer.amount (Transfer.new_signed 7 0 1 1 1000 10 5) ∧
    Transfer.get_ethereum_sign_message (Transfer.new_signed 7 0 1 1 2000 10 5)
        ("ETH") 18 ≠
      (Transfer.new_signed 7 0 1 1 1000 10 5).get_ethereum_sign_message
        ("ETH") 18 := by
  have h := c6_dual_signature_consistency acc0 1 ("ETH") 1000 10 1 none true
    (Transfer.new_signed 7 0 1 1 1000 10 5)
    ((Transfer.new_signed 7 0 1 1 1000 10 5).get_ethereum_sign_message
      ("ETH") 18)
    ⟨0, 0, 0, some 7, 6⟩ rfl
  exact ⟨h.1, h.2.2.2 (Transfer.new_signed 7 0 1 1 2000 10 5)
    (Or.inl (by decide))⟩

/-- Helper for C7 (soundness): when the retry loop, started at the m-th
iterate of the hash, succeeds, the returned key is a strictly later iterate —
every step re-hashes the previous digest — and it is the first valid one in
that range. -/
theorem pk_loop_ok (hash : List Nat → List Nat) (valid : List Nat → Bool)
    (seed : List Nat) :
    ∀ (fuel m : Nat) (key : List Nat),
      pk_loop hash valid fuel (hash^[m] seed) = .ok key →
      ∃ k, m + 1 ≤ k ∧ key = hash^[k] seed ∧ valid key = true ∧
        ∀ j, m + 1 ≤ j → j < k → valid (hash^[j] seed) = false := by
  intro fuel
  induction fuel with
  | zero =>
    intro m key h
    exact absurd h (by simp [pk_loop])
  | succ f ih =>
    intro m key h
    simp only [pk_loop] at h
    rw [← Function.iterate_succ_apply' hash m seed] at h
    split at h
    case isTrue hv =>
      injection h with h
      refine ⟨m + 1, Nat.le_refl _, h.symm, ?_, fun j hj1 hj2 => by omega⟩
      rw [← h]
      exact hv
    case isFalse hv =>
      have hvf : valid (hash^[m + 1] seed) = false := by
        cases hvb : valid (hash^[m + 1] seed)
        · rfl
        · exact absurd hvb hv
      obtain ⟨k, hk, hkey, hval2, hint⟩ := ih (m + 1) key h
      refine ⟨k, by omega, hkey, hval2, fun j hj1 hj2 => ?_⟩
      rcases Nat.eq_or_lt_of_le hj1 with heq | hlt2
      · rw [← heq]
        exact hvf
      · exact hint j hlt2 hj2

/-- Helper for C7 (completeness): if the k-th iterate is the first valid
digest after the start and the fuel reaches it, the retry loop returns
exactly that iterate. -/
theorem pk_loop_complete (hash : List Nat → List Nat)
    (valid : List Nat → Bool) (seed : List Nat) :
    ∀ (fuel m k : Nat), m + 1 ≤ k → k ≤ m + fuel →
      valid (hash^[k] seed) = true →
      (∀ j, m + 1 ≤ j → j < k → valid (hash^[j] seed) = false) →
      pk_loop hash valid fuel (hash^[m] seed) = .ok (hash^[k] seed) := by
  intro fuel
  induction fuel with
  | zero =>
    intro m k h1 h2 _ _
    omega
  | succ f ih =>
    intro m k h1 h2 hval hint
    simp only [pk_loop]
    rw [← Function.iterate_succ_apply' hash m seed]
    split
    case isTrue hv =>
      rcases Nat.eq_or_lt_of_le h1 with heq | hlt
      · exact congrArg DeriveResult.ok
          (congrArg (fun n => hash^[n] seed) heq)
      · have hfalse : valid (hash^[m + 1] seed) = false :=
          hint (m + 1) (Nat.le_refl _) hlt
        exact absurd hv (by rw [hfalse]; simp)
    case isFalse hv =>
      rcases Nat.eq_or_lt_of_le h1 with heq | hlt
      · refine absurd ?_ hv
        rw [← heq] at hval
        exact hval
      · exact ih (m + 1) k hlt (by omega) hval
          (fun j hj1 hj2 => hint j (by omega) hj2)

/-- C7: `private_key_from_seed` aborts on every seed shorter than 32 bytes;
on a seed of length at least 32 it deterministically produces the key by
repeated hashing in which each iteration re-hashes the previous digest (the
result is always an iterate `hash^[k] seed` with `k ≥ 2`, the first one past
the initial seed hash whose digest is a valid scalar), and conversely it
returns exactly the first such valid iterate whenever the fuel bound reaches
it. -/
theorem c7_private_key_from_seed (hash : List Nat → List Nat)
    (valid : List Nat → Bool) (fuel : Nat) (seed : List Nat) :
    (seed.length < 32 →
      private_key_from_seed hash valid fuel seed = .seedTooShort) ∧
    (∀ key, private_key_from_seed hash valid fuel seed = .ok key →
      32 ≤ seed.length ∧
      ∃ k, 2 ≤ k ∧ key = hash^[k] seed ∧ valid key = true ∧
        ∀ j, 2 ≤ j → j < k → valid (hash^[j] seed) = false) ∧
    (∀ k, 32 ≤ seed.length → 2 ≤ k → k ≤ fuel + 1 →
      valid (hash^[k] seed) = true →
      (∀ j, 2 ≤ j → j < k → valid (hash^[j] seed) = false) →
      private_key_from_seed hash valid fuel seed = .ok (hash^[k] seed)) := by
  refine ⟨fun hshort => ?_, fun key h => ?_, fun k hlen h2 hfuel hval hint => ?_⟩
  · simp [private_key_from_seed, hshort]
  · by_cases hlen : seed.length < 32
    · simp [private_key_from_seed, hlen] at h
    · refine ⟨by omega, ?_⟩
      rw [private_key_from_seed, if_neg hlen] at h
      rw [show hash seed = hash^[1] seed from
        (congrFun (Function.iterate_one hash) seed).symm] at h
      obtain ⟨k, hk, hkey, hvalid, hinterval⟩ :=
        pk_loop_ok hash valid seed fuel 1 key h
      exact ⟨k, hk, hkey, hvalid, hinterval⟩
  · rw [private_key_from_seed, if_neg (by omega)]
    rw [show hash seed = hash^[1] seed from
      (congrFun (Function.iterate_one hash) seed).symm]
    exact pk_loop_complete hash valid seed fuel 1 k h2 (by omega) hval hint

/-- C7 witness: with the fixture hash (prepend a zero) and validity test
(length 35), the 32-byte zero seed derives exactly the third iterate — the
first valid digest, reached by re-hashing previous outputs. -/
theorem c7_private_key_from_seed_witness :
    private_key_from_seed hashFix validFix 5 seedFix =
      .ok (hashFix^[3] seedFix) :=
  (c7_private_key_from_seed hashFix validFix 5 seedFix).2.2 3 (by decide)
    (by decide) (by decide) (by decide)
    (fun j hj1 hj2 => by
      have hj : j = 2 := by omega
      subst hj
      decide)

/-- Helper: `_get_state` never returns a recoverable error value — its
`unwrap` turns every RPC-layer `Err` into a panic. -/
theorem _get_state_ne_err (w : Wallet) (env : Env) (e : ClientError) :
    w._get_state env ≠ .err e := by
  unfold Wallet._get_state
  split <;> simp

/-- Helper: `get_account_id` never returns a recoverable error value. -/
theorem get_account_id_ne_err (w : Wallet) (env : Env) (e : ClientError) :
    w.get_account_id env ≠ .err e := by
  cases hs : w._get_state env with
  | ok a =>
    simp only [Wallet.get_account_id, hs]
    split <;> simp
  | err e2 => exact absurd hs (_get_state_ne_err w env e2)
  | panic m => simp [Wallet.get_account_id, hs]

/-- Helper: `get_nonce` never returns a recoverable error value. -/
theorem get_nonce_ne_err (w : Wallet) (env : Env) (e : ClientError) :
    w.get_nonce env ≠ .err e := by
  cases hs : w._get_state env with
  | ok a => simp [Wallet.get_nonce, hs]
  | err e2 => exact absurd hs (_get_state_ne_err w env e2)
  | panic m => simp [Wallet.get_nonce, hs]

/-- Helper: `get_balance` never returns a recoverable error value. -/
theorem get_balance_ne_err (w : Wallet) (env : Env) (token : String)
    (state : BalanceState) (e : ClientError) :
    w.get_balance env token state ≠ .err e := by
  cases hs : w._get_state env with
  | ok a =>
    cases state <;>
      (simp only [Wallet.get_balance, hs]; split <;> simp)
  | err e2 => exact absurd hs (_get_state_ne_err w env e2)
  | panic m => cases state <;> simp [Wallet.get_balance, hs]

/-- Helper: `resolve_token_id` never returns a recoverable error value. -/
theorem resolve_token_id_ne_err (env : Env) (sym : String) (e : ClientError) :
    Wallet.resolve_token_id env sym ≠ .err e := by
  unfold Wallet.resolve_token_id
  split <;> simp

/-- Helper: in a successful preparation the fee-estimate call must itself
have succeeded — `unwrap_or` evaluates its argument eagerly, so
`get_tx_fee` is invoked and `unwrap`ped before the supplied fee is even
consulted — and the prepared transfer carries `fee.getD estimate`. -/
theorem prepare_ok_shape (w : Wallet) (env : Env) (to_addr : Nat)
    (sym : String) (amt : Nat) (fee : Option Nat) (tx : FranklinTx)
    (msg : EthSignMessage) (accq : ZksyncAccount)
    (h : w.prepare_sync_transfer env to_addr sym amt fee =
      .ok (tx, msg, accq)) :
    ∃ est, RpcClient.get_tx_fee env.feeReply = .ok est ∧
      ∃ t, tx = .transfer t ∧ t.fee = fee.getD est := by
  unfold Wallet.prepare_sync_transfer at h
  cases hsa : w.sync_acc with
  | none =>
    simp only [hsa] at h
    exact RpcResult.noConfusion h
  | some sync_acc =>
    simp only [hsa] at h
    cases hid : w.get_account_id env with
    | err e2 =>
      simp only [hid] at h
      exact RpcResult.noConfusion h
    | panic m2 =>
      simp only [hid] at h
      exact RpcResult.noConfusion h
    | ok aid =>
      simp only [hid] at h
      cases hn : w.get_nonce env with
      | err e2 =>
        simp only [hn] at h
        exact RpcResult.noConfusion h
      | panic m2 =>
        simp only [hn] at h
        exact RpcResult.noConfusion h
      | ok rn =>
        simp only [hn] at h
        cases ht : Wallet.resolve_token_id env sym with
        | err e2 =>
          simp only [ht] at h
          exact RpcResult.noConfusion h
        | panic m2 =>
          simp only [ht] at h
          exact RpcResult.noConfusion h
        | ok resolved =>
          simp only [ht] at h
          cases hr : resolved with
          | none =>
            simp only [hr] at h
            exact RpcResult.noConfusion h
          | some token_id =>
            simp only [hr] at h
            cases hf : RpcClient.get_tx_fee env.feeReply with
            | err e2 =>
              simp only [hf] at h
              exact RpcResult.noConfusion h
            | panic m2 =>
              simp only [hf] at h
              exact RpcResult.noConfusion h
            | ok est =>
              simp only [hf, ZksyncAccount.sign_transfer,
                ZksyncAccount.set_account_id, ZksyncAccount.set_nonce] at h
              injection h with h
              simp only [Prod.mk.injEq] at h
              obtain ⟨h1, h2, h3⟩ := h
              exact ⟨est, rfl, Transfer.new_signed aid sync_acc.address
                to_addr token_id amt (fee.getD est) rn, h1.symm,
                by simp [Transfer.new_signed]⟩

/-- Helper: `prepare_sync_transfer` never returns a recoverable error value —
every failing step surfaces as a panic (a Rust `unwrap`), not as an `Err`. -/
theorem prepare_ne_err (w : Wallet) (env : Env) (to_addr : Nat)
    (sym : String) (amt : Nat) (fee : Option Nat) (e : ClientError) :
    w.prepare_sync_transfer env to_addr sym amt fee ≠ .err e := by
  intro h
  unfold Wallet.prepare_sync_transfer at h
  cases hsa : w.sync_acc with
  | none =>
    simp only [hsa] at h
    exact RpcResult.noConfusion h
  | some sync_acc =>
    simp only [hsa] at h
    cases hid : w.get_account_id env with
    | err e2 => exact absurd hid (get_account_id_ne_err w env e2)
    | panic m2 =>
      simp only [hid] at h
      exact RpcResult.noConfusion h
    | ok aid =>
      simp only [hid] at h
      cases hn : w.get_nonce env with
      | err e2 => exact absurd hn (get_nonce_ne_err w env e2)
      | panic m2 =>
        simp only [hn] at h
        exact RpcResult.noConfusion h
      | ok rn =>
        simp only [hn] at h
        cases ht : Wallet.resolve_token_id env sym with
        | err e2 => exact absurd ht (resolve_token_id_ne_err env sym e2)
        | panic m2 =>
          simp only [ht] at h
          exact RpcResult.noConfusion h
        | ok resolved =>
          simp only [ht] at h
          cases hr : resolved with
          | none =>
            simp only [hr] at h
            exact RpcResult.noConfusion h
          | some token_id =>
            simp only [hr] at h
            cases hf : RpcClient.get_tx_fee env.feeReply with
            | err e2 =>
              simp only [hf] at h
              exact RpcResult.noConfusion h
            | panic m2 =>
              simp only [hf] at h
              exact RpcResult.noConfusion h
            | ok est =>
              simp only [hf, ZksyncAccount.sign_transfer,
                ZksyncAccount.set_account_id, ZksyncAccount.set_nonce] at h
              exact RpcResult.noConfusion h

/-- C3 counterexample: a balance query for a token absent from the selected
(committed) balances map does not return a zero balance — it aborts (the
`unwrap` of `wallet.rs` on the missing map entry), refuting the claim at this
concrete input. -/
theorem c3_counterexample :
    Wallet.get_balance w0 envNoBal ("ETH") .committed =
        .panic ("called Option::unwrap on a None value") ∧
      Wallet.get_balance w0 envNoBal ("ETH") .committed ≠ .ok 0 := by
  exact ⟨rfl, by decide⟩

/-- C3 (amended): for every account-state response that decodes successfully
and every token absent from the selected balances map, `get_balance` aborts
with the `unwrap`-on-`None` panic; it returns neither a zero balance nor a
recoverable error. -/
theorem c3_absent_token_balance (w : Wallet) (env : Env) (token : String)
    (state : BalanceState) (a : AccountInfoResp)
    (hdec : RpcClient.account_state_info env.accountReply
      env.decodeAccountInfo = .ok a)
    (habs : (match state with
        | BalanceState.committed => a.committed.balances
        | BalanceState.verified => a.verified.balances).lookup token =
      none) :
    Wallet.get_balance w env token state =
        .panic ("called Option::unwrap on a None value") ∧
      ∀ e, w.get_balance env token state ≠ .err e := by
  have hs : w._get_state env = .ok a := by
    unfold Wallet._get_state
    rw [hdec]
  refine ⟨?_, fun e => get_balance_ne_err w env token state e⟩
  cases state with
  | committed =>
    have habs2 : List.lookup token a.committed.balances = none := habs
    simp only [Wallet.get_balance, hs]
    rw [habs2]
  | verified =>
    have habs2 : List.lookup token a.verified.balances = none := habs
    simp only [Wallet.get_balance, hs]
    rw [habs2]

/-- C3 witness: the amended theorem applied to the concrete empty-balances
response. -/
theorem c3_absent_token_balance_witness :
    Wallet.get_balance w0 envNoBal ("ETH") .committed =
        .panic ("called Option::unwrap on a None value") ∧
      Wallet.get_balance w0 envNoBal ("ETH") .committed ≠
        .err .unknownToken := by
  have h := c3_absent_token_balance w0 envNoBal ("ETH") .committed respNoBal
    rfl rfl
  exact ⟨h.1, h.2 .unknownToken⟩

/-- C4 counterexample: on an account-state response with the `id` field
absent, `get_account_id` does not fail with `AccountNotRegistered` — it
aborts (the `unwrap` of `wallet.rs` on the missing id), refuting the claim at
this concrete input. -/
theorem c4_counterexample :
    Wallet.get_account_id w0 envNoId =
        .panic ("called Option::unwrap on a None value") ∧
      Wallet.get_account_id w0 envNoId ≠ .err .accountNotRegistered := by
  exact ⟨rfl, by decide⟩

/-- C4 (amended): for every account-state response that decodes successfully
with the `id` field absent, `get_account_id` aborts with the
`unwrap`-on-`None` panic; it never returns a recoverable error value, in
particular not `AccountNotRegistered`. -/
theorem c4_unregistered_account (w : Wallet) (env : Env)
    (a : AccountInfoResp)
    (hdec : RpcClient.account_state_info env.accountReply
      env.decodeAccountInfo = .ok a)
    (hid : a.id = none) :
    Wallet.get_account_id w env =
        .panic ("called Option::unwrap on a None value") ∧
      ∀ e, w.get_account_id env ≠ .err e := by
  have hs : w._get_state env = .ok a := by
    unfold Wallet._get_state
    rw [hdec]
  refine ⟨?_, fun e => get_account_id_ne_err w env e⟩
  simp [Wallet.get_account_id, hs, hid]

/-- C4 witness: the amended theorem applied to the concrete id-less
response. -/
theorem c4_unregistered_account_witness :
    Wallet.get_account_id w0 envNoId =
        .panic ("called Option::unwrap on a None value") ∧
      Wallet.get_account_id w0 envNoId ≠ .err (.transport ("boom")) := by
  have h := c4_unregistered_account w0 envNoId respNoId rfl rfl
  exact ⟨h.1, h.2 (.transport ("boom"))⟩

/-- C5 counterexample: a success envelope whose result lacks the expected
`totalFee` string does not yield a `ProtocolError` result — the call aborts
(the `expect` of the source), refuting the claim at this concrete input. -/
theorem c5_counterexample :
    RpcClient.get_tx_fee (.replied (.success (.obj []))) =
        .panic ("Incorrect `totalFee` entry of response") ∧
      RpcClient.get_tx_fee (.replied (.success (.obj []))) ≠
        .err (.protocolError ("Incorrect `totalFee` entry of response")) := by
  exact ⟨rfl, by decide⟩

/-- C5 (amended): a failure envelope short-circuits every call to an error
carrying the code and message of the node, without the result payload being
decoded or returned; but a success envelope with an undecodable inner result
makes the call abort (panic via `expect`) — it does not return a
`ProtocolError` error value. -/
theorem c5_envelope_handling (f : RpcFailure)
    (decodeA : Json → Option AccountInfoResp) (decodeH : Json → Option Nat)
    (ret : Json) :
    RpcClient.post (.replied (.failure f)) =
        .err (.remoteRejected f.code f.message) ∧
      RpcClient.get_tx_fee (.replied (.failure f)) =
        .err (.remoteRejected f.code f.message) ∧
      RpcClient.send_tx (.replied (.failure f)) decodeH =
        .err (.remoteRejected f.code f.message) ∧
      RpcClient.account_state_info (.replied (.failure f)) decodeA =
        .err (.remoteRejected f.code f.message) ∧
      RpcClient.ethop_info (.replied (.failure f)) =
        .err (.remoteRejected f.code f.message) ∧
      RpcClient.tx_info (.replied (.failure f)) =
        .err (.remoteRejected f.code f.message) ∧
      ((ret.index ("totalFee")).asStr = none →
        RpcClient.get_tx_fee (.replied (.success ret)) =
          .panic ("Incorrect `totalFee` entry of response")) ∧
      (decodeA ret = none →
        RpcClient.account_state_info (.replied (.success ret)) decodeA =
          .panic ("failed to parse account request response")) ∧
      (decodeH ret = none →
        RpcClient.send_tx (.replied (.success ret)) decodeH =
          .panic ("failed to parse `send_tx` response")) := by
  refine ⟨rfl, rfl, rfl, rfl, rfl, rfl, fun h => ?_, fun h => ?_,
    fun h => ?_⟩
  · simp [RpcClient.get_tx_fee, RpcClient.post, RpcClient.post_raw, h]
  · simp [RpcClient.account_state_info, RpcClient.post, RpcClient.post_raw, h]
  · simp [RpcClient.send_tx, RpcClient.post, RpcClient.post_raw, h]

/-- C5 witness: the node rejects with code 101 — the call surfaces exactly
that code and message; and the concrete undecodable success result panics. -/
theorem c5_envelope_handling_witness :
    RpcClient.post (.replied (.failure ⟨101, "nonce mismatch"⟩)) =
        .err (.remoteRejected 101 ("nonce mismatch")) ∧
      RpcClient.get_tx_fee (.replied (.success (.obj []))) =
        .panic ("Incorrect `totalFee` entry of response") := by
  have h := c5_envelope_handling ⟨101, "nonce mismatch"⟩ (fun _ => none)
    (fun _ => none) (.obj [])
  exact ⟨h.1, h.2.2.2.2.2.2.1 rfl⟩

/-- C8 counterexample: with a caller-supplied fee of 10 the preparation is
not independent of the fee-estimate call — against a remote whose estimate
call answers with a failure envelope it aborts, while against an otherwise
identical remote it succeeds with the supplied fee; and the failure is a
panic, not `FeeUnavailable`. -/
theorem c8_counterexample :
    Wallet.prepare_sync_transfer w0 envBadFee 1 ("ETH") 1000 (some 10) =
        .panic ("called Result::unwrap on an Err value") ∧
      Wallet.prepare_sync_transfer w0 envOk 1 ("ETH") 1000 (some 10) =
        .ok (.transfer (Transfer.new_signed 7 0 1 1 1000 10 3),
          ⟨"ETH", 18, 1000, 10, 3⟩, ⟨0, 0, 0, some 7, 4⟩) := by
  exact ⟨rfl, rfl⟩

/-- C8 (amended): if the caller supplied a fee, that exact fee is used in the
signed transfer; but the fee estimate is requested unconditionally
(`unwrap_or` evaluates its argument eagerly), so the preparation can only
succeed when the estimate call succeeds, even with a supplied fee; and a
failing estimate aborts (panics) — the preparation never returns an error
value, in particular not `FeeUnavailable`. -/
theorem c8_fee_resolution (w : Wallet) (env : Env) (to_addr : Nat)
    (sym : String) (amt : Nat) :
    (∀ f t m a, w.prepare_sync_transfer env to_addr sym amt (some f) =
        .ok (.transfer t, m, a) → t.fee = f) ∧
      (∀ f r, w.prepare_sync_transfer env to_addr sym amt (some f) =
          .ok r → ∃ est, RpcClient.get_tx_fee env.feeReply = .ok est) ∧
      (∀ fee e, w.prepare_sync_transfer env to_addr sym amt fee ≠
        .err e) := by
  refine ⟨fun f t m a h => ?_, fun f r h => ?_,
    fun fee e => prepare_ne_err w env to_addr sym amt fee e⟩
  · obtain ⟨est, hest, t2, ht2, hfee⟩ :=
      prepare_ok_shape w env to_addr sym amt (some f) (.transfer t) m a h
    injection ht2 with ht2
    subst ht2
    exact hfee
  · obtain ⟨x, m2, a2⟩ := r
    obtain ⟨est, hest, _⟩ :=
      prepare_ok_shape w env to_addr sym amt (some f) x m2 a2 h
    exact ⟨est, hest⟩

/-- C8 witness: the amended theorem applied to the concrete remote — the
prepared transfer carries the supplied fee 10, and the result is not a
`FeeUnavailable` error. -/
theorem c8_fee_resolution_witness :
    Transfer.fee (Transfer.new_signed 7 0 1 1 1000 10 3) = 10 ∧
      Wallet.prepare_sync_transfer w0 envOk 1 ("ETH") 1000 (some 10) ≠
        .err (.feeUnavailable ("estimate failed")) := by
  have h := c8_fee_resolution w0 envOk 1 ("ETH") 1000
  exact ⟨h.1 10 (Transfer.new_signed 7 0 1 1 1000 10 3)
      ⟨"ETH", 18, 1000, 10, 3⟩ ⟨0, 0, 0, some 7, 4⟩ rfl,
    h.2.2 (some 10) (.feeUnavailable ("estimate failed"))⟩

end ZkClient
